import Mathlib

/-!
Shallow embedding of the r3f-transition-study repository:
a dual-scene off-screen compositing pipeline with a time-driven wipe
transition.  The three source artifacts embedded here are

* `TransitionMaterial` — the GLSL fragment shader of the compositor
  (uniforms `scene0 scene1 aspect action time timeStart duration`,
  wipe blend via a reversed-edge smoothstep);
* `TransitionScene` — the transition controller (React state
  `action`, `currentSceneIndex`, `timeStart`, `isFirstRender`, mutated by
  the effect that runs on each toggle) and the per-frame render pass
  sequence (`useFrame` body);
* the per-frame uniform update guarded by the material ref handle.

Shader floats are modelled as rationals; texture samples are modelled by
their rgb triple (the shader reads only `.rgb` of each sample and writes a
constant alpha of 1).
-/

namespace R3F

/-! Section: GLSL built-ins -/

/-- GLSL `clamp(x, lo, hi) = min(max(x, lo), hi)`. -/
def glClamp (x lo hi : ℚ) : ℚ := min (max x lo) hi

/-- GLSL `smoothstep(edge0, edge1, x)`: clamp the normalized parameter to
[0,1], then apply the cubic Hermite polynomial.  The edges may be given in
reversed order (`edge0 > edge1`), which yields the reversed ramp. -/
def smoothstep (edge0 edge1 x : ℚ) : ℚ :=
  let t := glClamp ((x - edge0) / (edge1 - edge0)) 0 1
  t * t * (3 - 2 * t)

/-- GLSL `mix(a, b, f) = a*(1-f) + b*f`. -/
def glMix (a b f : ℚ) : ℚ := a * (1 - f) + b * f

/-- An rgb color. -/
abbrev Color := ℚ × ℚ × ℚ

/-- Componentwise `mix` on rgb colors. -/
def mixColor (a b : Color) (f : ℚ) : Color :=
  (glMix a.1 b.1 f, glMix a.2.1 b.2.1 f, glMix a.2.2 b.2.2 f)

/-! Section: TransitionMaterial fragment shader -/

/-- The compositor's uniform block.  A sampler is modelled as a function
from a uv coordinate to the rgb of the sampled texel. -/
structure Uniforms where
  scene0 : ℚ × ℚ → Color
  scene1 : ℚ × ℚ → Color
  aspect : ℚ
  action : ℚ
  time : ℚ
  timeStart : ℚ
  duration : ℚ

/-- Shader constant `float waveWidth = 0.25;`. -/
def waveWidth : ℚ := 1/4

/-- Shader constant `float halfWave = waveWidth * 0.5;`. -/
def halfWave : ℚ := waveWidth * (1/2)

/-- Shader constant `float maxLength = 1.0 + waveWidth;`. -/
def maxLength : ℚ := 1 + waveWidth

/-- The clamped transition progress
`clamp((time - timeStart) / duration, 0.0, 1.0)`. -/
def progress (time timeStart duration : ℚ) : ℚ :=
  glClamp ((time - timeStart) / duration) 0 1

/-- `float currWavePos = -halfWave + maxLength * clamp((time - timeStart) / duration, 0.0, 1.0);`. -/
def currWavePos (time timeStart duration : ℚ) : ℚ :=
  -halfWave + maxLength * progress time timeStart duration

/-- `float f = smoothstep(currWavePos + halfWave, currWavePos - halfWave, d);`
— the per-pixel blend factor, `d` being the pixel's horizontal uv
coordinate `vUv.x`. -/
def blendFactor (time timeStart duration d : ℚ) : ℚ :=
  smoothstep (currWavePos time timeStart duration + halfWave)
    (currWavePos time timeStart duration - halfWave) d

/-- The blend factor as a function of an already-computed progress value:
the same two shader lines with `clamp((time - timeStart)/duration, 0, 1)`
replaced by the given `p`.  Used to speak about "the value computed for
progress = 0". -/
def blendFactorAtProgress (p d : ℚ) : ℚ :=
  smoothstep ((-halfWave + maxLength * p) + halfWave)
    ((-halfWave + maxLength * p) - halfWave) d

/-- `main()` of the fragment shader: sample both scenes at `vUv`, compute
the wipe blend factor from `vUv.x`, and output `vec4(mix(s0.rgb, s1.rgb, f), 1.0)`. -/
def fragMain (u : Uniforms) (vUv : ℚ × ℚ) : Color × ℚ :=
  let s0 := u.scene0 vUv
  let s1 := u.scene1 vUv
  let d := vUv.1
  let f := blendFactor u.time u.timeStart u.duration d
  (mixColor s0 s1 f, 1)

/-! Section: Transition controller (TransitionScene component state) -/

/-- The React state of `TransitionScene` that the toggle effect mutates:
`action`, `currentSceneIndex`, `timeStart` and the one-shot
`isFirstRender` guard. -/
structure ControllerState where
  action : ℕ
  currentSceneIndex : ℕ
  timeStart : ℚ
  isFirstRender : Bool
deriving DecidableEq

/-- `useState` initial values: `action = 0`, `currentSceneIndex = 0`,
`timeStart = -1000`, `isFirstRender = true`. -/
def initialState : ControllerState :=
  { action := 0, currentSceneIndex := 0, timeStart := -1000, isFirstRender := true }

/-- The body of the `useEffect` that runs on each change of `toggle`
(`onTrigger`): if the guard is already consumed, flip `action`, flip
`currentSceneIndex` and stamp `timeStart` from the clock; otherwise
consume the guard. -/
def onTrigger (s : ControllerState) (now : ℚ) : ControllerState :=
  if !s.isFirstRender then
    { action := if s.action = 0 then 1 else 0
      currentSceneIndex := if s.currentSceneIndex = 0 then 1 else 0
      timeStart := now
      isFirstRender := s.isFirstRender }
  else
    { s with isFirstRender := false }

/-! Section: Per-frame render pass sequence (useFrame body) -/

/-- One WebGL-level step taken by the `useFrame` callback:
`setTarget (some i)` is `gl.setRenderTarget(fbo_i)`, `setTarget none` is
`gl.setRenderTarget(null)`, and `renderScene j` is
`gl.render(scenes[j], camera)` into the currently bound target. -/
inductive RenderCmd where
  | setTarget : Option ℕ → RenderCmd
  | renderScene : ℕ → RenderCmd
deriving DecidableEq

/-- The compositor material's uniform slots written by `useFrame`:
`scene0`/`scene1` record which fbo's texture is bound (1 for `fbo1`,
2 for `fbo2`) together with the `time` and `timeStart` floats. -/
structure MatUniforms where
  scene0 : ℕ
  scene1 : ℕ
  time : ℚ
  timeStart : ℚ
deriving DecidableEq

/-- The compositor material as seen from `useFrame`: `handle` is whether
`materialRef.current` is non-null, `uniforms` the material's current
uniform values. -/
structure MaterialRef where
  handle : Bool
  uniforms : MatUniforms
deriving DecidableEq

/-- The `useFrame` callback: render `scenes[currentSceneIndex]` into
`fbo1`, then `scenes[1 - currentSceneIndex]` into `fbo2`, then restore the
default target; afterwards, if the material handle is present, write the
four uniforms `scene0, scene1, time, timeStart`.  Returns the emitted
command sequence, in order, together with the material state after the
frame. -/
def useFrameBody (now : ℚ) (currentSceneIndex : ℕ) (timeStart : ℚ)
    (mat : MaterialRef) : List RenderCmd × MaterialRef :=
  let cmds : List RenderCmd :=
    [RenderCmd.setTarget (some 1),
     RenderCmd.renderScene currentSceneIndex,
     RenderCmd.setTarget (some 2),
     RenderCmd.renderScene (1 - currentSceneIndex),
     RenderCmd.setTarget none]
  if mat.handle then
    (cmds,
     { handle := mat.handle
       uniforms := { scene0 := 1, scene1 := 2, time := now, timeStart := timeStart } })
  else
    (cmds, mat)

/-- Which scene index is drawn into `fbo1` on a frame with the given
controller index (read off the command sequence's structure). -/
def sceneIntoTarget1 (currentSceneIndex : ℕ) : ℕ := currentSceneIndex

/-- Which scene index is drawn into `fbo2` on a frame with the given
controller index. -/
def sceneIntoTarget2 (currentSceneIndex : ℕ) : ℕ := 1 - currentSceneIndex

/-! Section: helper lemmas about the GLSL primitives -/

/-- The cubic Hermite polynomial applied by `smoothstep` after clamping. -/
def hermite (t : ℚ) : ℚ := t * t * (3 - 2 * t)

lemma glClamp01_nonneg (x : ℚ) : 0 ≤ glClamp x 0 1 :=
  le_min (le_max_right x 0) (by norm_num)

lemma glClamp01_le_one (x : ℚ) : glClamp x 0 1 ≤ 1 :=
  min_le_right _ _

lemma glClamp_mono (lo hi : ℚ) {x y : ℚ} (h : x ≤ y) :
    glClamp x lo hi ≤ glClamp y lo hi :=
  min_le_min (max_le_max h le_rfl) le_rfl

lemma glClamp01_eq_one {x : ℚ} (h : 1 ≤ x) : glClamp x 0 1 = 1 := by
  unfold glClamp
  rw [min_eq_right (le_trans h (le_max_left x 0))]

lemma glClamp01_eq_zero {x : ℚ} (h : x ≤ 0) : glClamp x 0 1 = 0 := by
  unfold glClamp
  rw [max_eq_right h, min_eq_left (by norm_num)]

lemma hermite_zero : hermite 0 = 0 := by norm_num [hermite]

lemma hermite_one : hermite 1 = 1 := by norm_num [hermite]

lemma hermite_mono {a b : ℚ} (ha : 0 ≤ a) (hab : a ≤ b) (hb : b ≤ 1) :
    hermite a ≤ hermite b := by
  unfold hermite
  nlinarith [mul_nonneg (sub_nonneg.mpr hab) (sub_nonneg.mpr hb),
    mul_nonneg ha (sub_nonneg.mpr hab), mul_nonneg (mul_nonneg ha ha) (sub_nonneg.mpr hab)]

/-- `halfWave` evaluates to `1/8`. -/
lemma halfWave_eq : halfWave = 1/8 := by norm_num [halfWave, waveWidth]

/-- `maxLength` evaluates to `5/4`. -/
lemma maxLength_eq : maxLength = 5/4 := by norm_num [maxLength, waveWidth]

/-- The clamped smoothstep parameter of the shader's blend line: the two
edges are `currWavePos ± halfWave`, so the edge difference is the constant
`-waveWidth = -1/4` and the normalized parameter is `4 * (edge0 - d)`. -/
def waveT (time timeStart duration d : ℚ) : ℚ :=
  glClamp (4 * (currWavePos time timeStart duration + halfWave - d)) 0 1

lemma blendFactor_eq_hermite (time timeStart duration d : ℚ) :
    blendFactor time timeStart duration d =
      hermite (waveT time timeStart duration d) := by
  have h : (d - (currWavePos time timeStart duration + halfWave)) /
      ((currWavePos time timeStart duration - halfWave) -
        (currWavePos time timeStart duration + halfWave)) =
      4 * (currWavePos time timeStart duration + halfWave - d) := by
    rw [halfWave_eq]
    ring
  simp only [blendFactor, smoothstep, waveT, hermite, h]

lemma waveT_nonneg (time timeStart duration d : ℚ) :
    0 ≤ waveT time timeStart duration d :=
  glClamp01_nonneg _

lemma waveT_le_one (time timeStart duration d : ℚ) :
    waveT time timeStart duration d ≤ 1 :=
  glClamp01_le_one _

lemma waveT_anti_d (time timeStart duration : ℚ) {d1 d2 : ℚ} (h : d1 ≤ d2) :
    waveT time timeStart duration d2 ≤ waveT time timeStart duration d1 :=
  glClamp_mono 0 1 (by linarith)

lemma progress_mono_time (timeStart duration : ℚ) (hdur : 0 < duration)
    {t1 t2 : ℚ} (h : t1 ≤ t2) :
    progress t1 timeStart duration ≤ progress t2 timeStart duration := by
  apply glClamp_mono
  gcongr

lemma currWavePos_mono_time (timeStart duration : ℚ) (hdur : 0 < duration)
    {t1 t2 : ℚ} (h : t1 ≤ t2) :
    currWavePos t1 timeStart duration ≤ currWavePos t2 timeStart duration := by
  unfold currWavePos
  have := progress_mono_time timeStart duration hdur h
  rw [maxLength_eq]
  linarith [maxLength_eq]

lemma waveT_mono_time (timeStart duration d : ℚ) (hdur : 0 < duration)
    {t1 t2 : ℚ} (h : t1 ≤ t2) :
    waveT t1 timeStart duration d ≤ waveT t2 timeStart duration d := by
  apply glClamp_mono
  have := currWavePos_mono_time timeStart duration hdur h
  linarith

lemma progress_eq_one {time timeStart duration : ℚ} (hdur : 0 < duration)
    (h : duration ≤ time - timeStart) :
    progress time timeStart duration = 1 :=
  glClamp01_eq_one ((one_le_div hdur).mpr h)

lemma progress_self (now timeStart duration : ℚ) (h : timeStart = now) :
    progress now timeStart duration = 0 := by
  unfold progress
  rw [h, sub_self, zero_div]
  exact glClamp01_eq_zero le_rfl

lemma mixColor_one (a b : Color) : mixColor a b 1 = b := by
  obtain ⟨x, y, z⟩ := b
  norm_num [mixColor, glMix]

/-! Section: claim theorems -/

/-- C1: whenever `now - transitionStart ≥ duration`, the clamped progress
is 1, the blend factor is 1 at every pixel coordinate `d ∈ [0,1]`, and the
composite output color equals the `scene1` texture sample at that pixel.
The sentinel state `transitionStart = -1000` with `now ≥ 0` is an
instance. -/
theorem c1_steady_state_blend (u : Uniforms) (vUv : ℚ × ℚ)
    (hdur : 0 < u.duration) (hss : u.duration ≤ u.time - u.timeStart)
    (hd0 : 0 ≤ vUv.1) (hd1 : vUv.1 ≤ 1) :
    progress u.time u.timeStart u.duration = 1 ∧
    blendFactor u.time u.timeStart u.duration vUv.1 = 1 ∧
    (fragMain u vUv).1 = u.scene1 vUv := by
  have hp : progress u.time u.timeStart u.duration = 1 :=
    progress_eq_one hdur hss
  have hw : currWavePos u.time u.timeStart u.duration = 9/8 := by
    rw [currWavePos, hp, maxLength_eq, halfWave_eq]
    norm_num
  have ht : waveT u.time u.timeStart u.duration vUv.1 = 1 := by
    rw [waveT, hw, halfWave_eq]
    exact glClamp01_eq_one (by linarith)
  have hf : blendFactor u.time u.timeStart u.duration vUv.1 = 1 := by
    rw [blendFactor_eq_hermite, ht, hermite_one]
  refine ⟨hp, hf, ?_⟩
  simp only [fragMain, hf, mixColor_one]

/-- C1 witness: the pre-transition sentinel `transitionStart = -1000`,
`now = 0`, `duration = 3` at pixel `d = 1/2` with constant red and blue
scene textures. -/
theorem c1_steady_state_blend_witness :
    progress 0 (-1000) 3 = 1 ∧
    blendFactor 0 (-1000) 3 (1/2) = 1 ∧
    (fragMain
      { scene0 := fun _ => (1, 0, 0), scene1 := fun _ => (0, 0, 1),
        aspect := 1, action := 0, time := 0, timeStart := -1000, duration := 3 }
      (1/2, 1/2)).1 = (0, 0, 1) := by
  have h := c1_steady_state_blend
    { scene0 := fun _ => (1, 0, 0), scene1 := fun _ => (0, 0, 1),
      aspect := 1, action := 0, time := 0, timeStart := -1000, duration := 3 }
    (1/2, 1/2) (by norm_num) (by norm_num) (by norm_num) (by norm_num)
  exact ⟨h.1, h.2.1, h.2.2⟩

/-- C10: the fragment shader's output is independent of the `aspect` and
`action` uniforms — two uniform snapshots agreeing on `scene0`, `scene1`,
`time`, `timeStart` and `duration` yield identical output at every
pixel. -/
theorem c10_aspect_action_noninterference (u1 u2 : Uniforms)
    (h0 : u1.scene0 = u2.scene0) (h1 : u1.scene1 = u2.scene1)
    (ht : u1.time = u2.time) (hts : u1.timeStart = u2.timeStart)
    (hd : u1.duration = u2.duration) :
    ∀ vUv : ℚ × ℚ, fragMain u1 vUv = fragMain u2 vUv := by
  intro vUv
  simp only [fragMain, h0, h1, ht, hts, hd]

/-- C10 witness: two snapshots that differ only in `aspect` (1 versus 7)
and `action` (0 versus 1) produce the same output at pixel `(1/2, 1/2)`. -/
theorem c10_aspect_action_noninterference_witness :
    fragMain
      { scene0 := fun _ => (1, 0, 0), scene1 := fun _ => (0, 0, 1),
        aspect := 1, action := 0, time := 2, timeStart := 1, duration := 3 }
      (1/2, 1/2) =
    fragMain
      { scene0 := fun _ => (1, 0, 0), scene1 := fun _ => (0, 0, 1),
        aspect := 7, action := 1, time := 2, timeStart := 1, duration := 3 }
      (1/2, 1/2) :=
  c10_aspect_action_noninterference _ _ rfl rfl rfl rfl rfl (1/2, 1/2)

/-- C4: the very first trigger after process start (guard still set) only
consumes the guard: `action`, `currentSceneIndex` and `timeStart` are all
unchanged. -/
theorem c4_first_trigger_guard (s : ControllerState) (now : ℚ)
    (h : s.isFirstRender = true) :
    onTrigger s now =
      { action := s.action, currentSceneIndex := s.currentSceneIndex,
        timeStart := s.timeStart, isFirstRender := false } := by
  simp [onTrigger, h]

/-- C4 witness: the first trigger from the initial state at clock time 5
leaves everything but the guard unchanged. -/
theorem c4_first_trigger_guard_witness :
    onTrigger initialState 5 =
      { action := 0, currentSceneIndex := 0, timeStart := -1000,
        isFirstRender := false } :=
  c4_first_trigger_guard initialState 5 rfl

/-- C6: every frame emits exactly the pass sequence: bind `fbo1`, render
`scenes[currentSceneIndex]`, bind `fbo2`, render
`scenes[1 - currentSceneIndex]`, restore the default (null) target — in
this order, with `currentSceneIndex` the controller's active index, and the
restore preceding any compositor sampling (it is the last command). -/
theorem c6_frame_pass_sequence (now : ℚ) (s : ControllerState) (ts : ℚ)
    (mat : MaterialRef) :
    (useFrameBody now s.currentSceneIndex ts mat).1 =
      [RenderCmd.setTarget (some 1),
       RenderCmd.renderScene s.currentSceneIndex,
       RenderCmd.setTarget (some 2),
       RenderCmd.renderScene (1 - s.currentSceneIndex),
       RenderCmd.setTarget none] := by
  by_cases h : mat.handle <;> simp [useFrameBody, h]

/-- C8: with the guard already consumed, two consecutive triggers form an
identity on `currentSceneIndex`, hence the next frame's render pass
sequence is exactly what it was before the two triggers. -/
theorem c8_double_trigger_involution (s : ControllerState) (t1 t2 : ℚ)
    (hguard : s.isFirstRender = false) (hidx : s.currentSceneIndex ≤ 1) :
    (onTrigger (onTrigger s t1) t2).currentSceneIndex = s.currentSceneIndex ∧
    ∀ (now ts : ℚ) (mat : MaterialRef),
      (useFrameBody now ((onTrigger (onTrigger s t1) t2).currentSceneIndex) ts mat).1 =
      (useFrameBody now s.currentSceneIndex ts mat).1 := by
  have h : s.currentSceneIndex = 0 ∨ s.currentSceneIndex = 1 := by omega
  rcases h with h | h <;>
    (refine ⟨by simp [onTrigger, hguard, h], ?_⟩
     intro now ts mat
     by_cases hm : mat.handle <;> simp [onTrigger, useFrameBody, hguard, h, hm])

/-- C8 witness: two triggers from a guard-consumed state with index 0
restore index 0 and the original frame command list. -/
theorem c8_double_trigger_involution_witness :
    (onTrigger (onTrigger
      { action := 0, currentSceneIndex := 0, timeStart := 0, isFirstRender := false }
      1) 2).currentSceneIndex = 0 ∧
    (useFrameBody 3 ((onTrigger (onTrigger
      { action := 0, currentSceneIndex := 0, timeStart := 0, isFirstRender := false }
      1) 2).currentSceneIndex) 2
      { handle := true, uniforms := { scene0 := 0, scene1 := 0, time := 0, timeStart := 0 } }).1 =
    (useFrameBody 3 0 2
      { handle := true, uniforms := { scene0 := 0, scene1 := 0, time := 0, timeStart := 0 } }).1 := by
  have h := c8_double_trigger_involution
    { action := 0, currentSceneIndex := 0, timeStart := 0, isFirstRender := false }
    1 2 rfl (by norm_num)
  exact ⟨h.1, by rw [h.1]⟩

/-- C9: on a frame where the material handle is null, the uniform update is
skipped atomically — the material state (all four uniform slots) is
exactly what it was — while the off-screen render passes still run
unchanged. -/
theorem c9_missing_handle_skips_uniforms (now : ℚ) (idx : ℕ) (ts : ℚ)
    (mat : MaterialRef) (h : mat.handle = false) :
    (useFrameBody now idx ts mat).2 = mat ∧
    (useFrameBody now idx ts mat).1 =
      [RenderCmd.setTarget (some 1),
       RenderCmd.renderScene idx,
       RenderCmd.setTarget (some 2),
       RenderCmd.renderScene (1 - idx),
       RenderCmd.setTarget none] := by
  simp [useFrameBody, h]

/-- C9 witness: a null-handle frame at time 7 leaves a concrete uniform
snapshot untouched and still emits the standard pass list. -/
theorem c9_missing_handle_skips_uniforms_witness :
    (useFrameBody 7 0 2
      { handle := false,
        uniforms := { scene0 := 5, scene1 := 6, time := 9, timeStart := 4 } }).2 =
      { handle := false,
        uniforms := { scene0 := 5, scene1 := 6, time := 9, timeStart := 4 } } ∧
    (useFrameBody 7 0 2
      { handle := false,
        uniforms := { scene0 := 5, scene1 := 6, time := 9, timeStart := 4 } }).1 =
      [RenderCmd.setTarget (some 1), RenderCmd.renderScene 0,
       RenderCmd.setTarget (some 2), RenderCmd.renderScene 1,
       RenderCmd.setTarget none] :=
  c9_missing_handle_skips_uniforms 7 0 2 _ rfl

/-- C2 counterexample: from a guard-consumed state with index 0, one
trigger changes the frame's render pass sequence — `scenes[1]` is now the
scene drawn into `fbo1` where `scenes[0]` was before — so the
scene-to-render-target mapping is not left unchanged by the trigger. -/
theorem c2_counterexample :
    ¬ ((useFrameBody 5 ((onTrigger
          { action := 0, currentSceneIndex := 0, timeStart := 0,
            isFirstRender := false } 5).currentSceneIndex) 5
        { handle := true,
          uniforms := { scene0 := 0, scene1 := 0, time := 0, timeStart := 0 } }).1 =
      (useFrameBody 0 (ControllerState.currentSceneIndex
          { action := 0, currentSceneIndex := 0, timeStart := 0,
            isFirstRender := false }) 0
        { handle := true,
          uniforms := { scene0 := 0, scene1 := 0, time := 0, timeStart := 0 } }).1) := by
  simp [onTrigger, useFrameBody]

/-- C2 (amended): flipping `activeIndex` swaps the scene-to-render-target
mapping — after the trigger the frame renders `scenes[1 − old]` into the
first target and `scenes[old]` into the second (the mapping is
`Scene[activeIndex] → Target1`, not a fixed `Scene[i] → Target[i]`) — and
the `action` uniform flips as well. -/
theorem c2_trigger_swaps_targets (s : ControllerState) (now ts : ℚ)
    (mat : MaterialRef)
    (hguard : s.isFirstRender = false) (hidx : s.currentSceneIndex ≤ 1) :
    (useFrameBody now ((onTrigger s now).currentSceneIndex) ts mat).1 =
      [RenderCmd.setTarget (some 1),
       RenderCmd.renderScene (1 - s.currentSceneIndex),
       RenderCmd.setTarget (some 2),
       RenderCmd.renderScene s.currentSceneIndex,
       RenderCmd.setTarget none] ∧
    (onTrigger s now).action = (if s.action = 0 then 1 else 0) := by
  have h : s.currentSceneIndex = 0 ∨ s.currentSceneIndex = 1 := by omega
  by_cases hm : mat.handle <;> rcases h with h | h <;>
    simp [onTrigger, useFrameBody, hguard, h, hm]

/-- C2 witness: from index 0 with the guard consumed, the post-trigger
frame renders `scenes[1]` into the first target and `scenes[0]` into the
second, and `action` flips from 0 to 1. -/
theorem c2_trigger_swaps_targets_witness :
    (useFrameBody 5 ((onTrigger
        { action := 0, currentSceneIndex := 0, timeStart := 0,
          isFirstRender := false } 5).currentSceneIndex) 5
      { handle := true,
        uniforms := { scene0 := 0, scene1 := 0, time := 0, timeStart := 0 } }).1 =
      [RenderCmd.setTarget (some 1), RenderCmd.renderScene 1,
       RenderCmd.setTarget (some 2), RenderCmd.renderScene 0,
       RenderCmd.setTarget none] ∧
    (onTrigger
      { action := 0, currentSceneIndex := 0, timeStart := 0,
        isFirstRender := false } 5).action = 1 :=
  c2_trigger_swaps_targets
    { action := 0, currentSceneIndex := 0, timeStart := 0, isFirstRender := false }
    5 5 _ rfl (by norm_num)

/-- C3 counterexample: at progress 1/2 (`time = 3/2`, `timeStart = 0`,
`duration = 3`) and pixels `d1 = 3/10 < d2 = 7/10` in `[0,1]`, the blend
factor is 1 at `d1` and 0 at `d2`, so `f(d2) ≥ f(d1)` fails: texture1 is
revealed at smaller `d` first, not at larger `d`. -/
theorem c3_counterexample :
    ¬ (blendFactor (3/2) 0 3 (3/10) ≤ blendFactor (3/2) 0 3 (7/10)) := by
  have hw : currWavePos (3/2) 0 3 = 1/2 := by
    simp only [currWavePos, maxLength_eq, halfWave_eq, progress, glClamp]
    norm_num [min_def, max_def]
  have h1 : blendFactor (3/2) 0 3 (3/10) = 1 := by
    rw [blendFactor_eq_hermite]
    have ht : waveT (3/2) 0 3 (3/10) = 1 := by
      rw [waveT, hw, halfWave_eq]
      exact glClamp01_eq_one (by norm_num)
    rw [ht, hermite_one]
  have h2 : blendFactor (3/2) 0 3 (7/10) = 0 := by
    rw [blendFactor_eq_hermite]
    have ht : waveT (3/2) 0 3 (7/10) = 0 := by
      rw [waveT, hw, halfWave_eq]
      exact glClamp01_eq_zero (by norm_num)
    rw [ht, hermite_zero]
  rw [h1, h2]
  norm_num

/-- C3 (amended): with the reversed-edge smoothstep the wipe sweeps from
`d = 0` toward `d = 1` (left-to-right) as progress increases: for every
progress state and every `d1 ≤ d2`, the blend factor satisfies
`f(d2) ≤ f(d1)` — the incoming texture1 is revealed at smaller `d` before
larger `d`. -/
theorem c3_wipe_direction (time timeStart duration : ℚ) {d1 d2 : ℚ}
    (h : d1 ≤ d2) :
    blendFactor time timeStart duration d2 ≤
      blendFactor time timeStart duration d1 := by
  rw [blendFactor_eq_hermite, blendFactor_eq_hermite]
  exact hermite_mono (waveT_nonneg _ _ _ _) (waveT_anti_d _ _ _ h)
    (waveT_le_one _ _ _ _)

/-- C3 witness: at progress 1/2, the blend factor at `d = 7/10` is at most
the blend factor at `d = 3/10`. -/
theorem c3_wipe_direction_witness :
    blendFactor (3/2) 0 3 (7/10) ≤ blendFactor (3/2) 0 3 (3/10) :=
  c3_wipe_direction (3/2) 0 3 (by norm_num)

/-- C5: a trigger while `now - transitionStart < duration` is not ignored:
it stamps `transitionStart := now` and flips the index; the next-frame
blend factor (sampled at the new `transitionStart`) equals the value the
shader computes for progress 0 at every pixel, and at any pixel `d ≥ 0`
whose pre-retrigger blend factor lay strictly inside `(0,1)` the
post-retrigger value differs from it (an instantaneous discontinuity). -/
theorem c5_retrigger_discontinuity (s : ControllerState) (now duration d : ℚ)
    (hguard : s.isFirstRender = false)
    (hmid : now - s.timeStart < duration)
    (hd0 : 0 ≤ d)
    (hpre0 : 0 < blendFactor now s.timeStart duration d)
    (hpre1 : blendFactor now s.timeStart duration d < 1) :
    (onTrigger s now).timeStart = now ∧
    (onTrigger s now).currentSceneIndex =
      (if s.currentSceneIndex = 0 then 1 else 0) ∧
    (∀ d' : ℚ, blendFactor now (onTrigger s now).timeStart duration d' =
      blendFactorAtProgress 0 d') ∧
    blendFactor now (onTrigger s now).timeStart duration d ≠
      blendFactor now s.timeStart duration d := by
  have hts : (onTrigger s now).timeStart = now := by
    simp [onTrigger, hguard]
  have hidx : (onTrigger s now).currentSceneIndex =
      (if s.currentSceneIndex = 0 then 1 else 0) := by
    simp [onTrigger, hguard]
  have hfresh : ∀ d' : ℚ,
      blendFactor now now duration d' = blendFactorAtProgress 0 d' := by
    intro d'
    simp only [blendFactor, blendFactorAtProgress, currWavePos,
      progress_self now now duration rfl]
  have hpost : blendFactor now now duration d = 0 := by
    rw [blendFactor_eq_hermite]
    have hw : currWavePos now now duration = -halfWave := by
      rw [currWavePos, progress_self now now duration rfl]
      ring
    have ht : waveT now now duration d = 0 := by
      rw [waveT, hw]
      exact glClamp01_eq_zero (by linarith)
    rw [ht, hermite_zero]
  refine ⟨hts, hidx, by rw [hts]; exact hfresh, ?_⟩
  rw [hts, hpost]
  intro hc
  rw [← hc] at hpre0
  exact lt_irrefl 0 hpre0

/-- C5 witness: from `timeStart = 0`, `duration = 3`, a retrigger at
`now = 3/2` (mid-transition) with pixel `d = 1/2`, whose pre-retrigger
blend factor is 1/2. -/
theorem c5_retrigger_discontinuity_witness :
    (onTrigger
      { action := 0, currentSceneIndex := 0, timeStart := 0,
        isFirstRender := false } (3/2)).timeStart = 3/2 ∧
    (onTrigger
      { action := 0, currentSceneIndex := 0, timeStart := 0,
        isFirstRender := false } (3/2)).currentSceneIndex = 1 ∧
    (∀ d' : ℚ, blendFactor (3/2)
      (onTrigger
        { action := 0, currentSceneIndex := 0, timeStart := 0,
          isFirstRender := false } (3/2)).timeStart 3 d' =
      blendFactorAtProgress 0 d') ∧
    blendFactor (3/2)
      (onTrigger
        { action := 0, currentSceneIndex := 0, timeStart := 0,
          isFirstRender := false } (3/2)).timeStart 3 (1/2) ≠
      blendFactor (3/2) 0 3 (1/2) := by
  have hpre : blendFactor (3/2) 0 3 (1/2) = 1/2 := by
    have hw : currWavePos (3/2) 0 3 = 1/2 := by
      simp only [currWavePos, maxLength_eq, halfWave_eq, progress, glClamp]
      norm_num [min_def, max_def]
    rw [blendFactor_eq_hermite]
    have ht : waveT (3/2) 0 3 (1/2) = 1/2 := by
      simp only [waveT, hw, halfWave_eq, glClamp]
      norm_num [min_def, max_def]
    rw [ht]
    norm_num [hermite]
  exact c5_retrigger_discontinuity
    { action := 0, currentSceneIndex := 0, timeStart := 0, isFirstRender := false }
    (3/2) 3 (1/2) rfl (by norm_num) (by norm_num)
    (by rw [hpre]; norm_num) (by rw [hpre]; norm_num)

/-- C7: for fixed `transitionStart` and positive `duration`, the blend
factor is non-decreasing in `now` at every fixed pixel, monotonic
(non-increasing) in `d` for fixed `now`, and constant outside the wave
band: 1 at or below `wavePos - halfWave` and 0 at or above
`wavePos + halfWave`. -/
theorem c7_monotone_sweep (timeStart duration : ℚ) (hdur : 0 < duration) :
    (∀ d now1 now2, now1 ≤ now2 →
      blendFactor now1 timeStart duration d ≤
        blendFactor now2 timeStart duration d) ∧
    (∀ now d1 d2, d1 ≤ d2 →
      blendFactor now timeStart duration d2 ≤
        blendFactor now timeStart duration d1) ∧
    (∀ now d, d ≤ currWavePos now timeStart duration - halfWave →
      blendFactor now timeStart duration d = 1) ∧
    (∀ now d, currWavePos now timeStart duration + halfWave ≤ d →
      blendFactor now timeStart duration d = 0) := by
  refine ⟨?_, ?_, ?_, ?_⟩
  · intro d now1 now2 h
    rw [blendFactor_eq_hermite, blendFactor_eq_hermite]
    exact hermite_mono (waveT_nonneg _ _ _ _)
      (waveT_mono_time timeStart duration d hdur h) (waveT_le_one _ _ _ _)
  · intro now d1 d2 h
    rw [blendFactor_eq_hermite, blendFactor_eq_hermite]
    exact hermite_mono (waveT_nonneg _ _ _ _) (waveT_anti_d _ _ _ h)
      (waveT_le_one _ _ _ _)
  · intro now d h
    rw [blendFactor_eq_hermite]
    have ht : waveT now timeStart duration d = 1 := by
      rw [waveT]
      apply glClamp01_eq_one
      rw [halfWave_eq] at h ⊢
      linarith
    rw [ht, hermite_one]
  · intro now d h
    rw [blendFactor_eq_hermite]
    have ht : waveT now timeStart duration d = 0 := by
      rw [waveT]
      exact glClamp01_eq_zero (by linarith)
    rw [ht, hermite_zero]

/-- C7 witness: with `timeStart = 0`, `duration = 3`: the blend factor at
pixel 1/2 does not decrease from `now = 1` to `now = 2`; at `now = 3/2` it
is antitone from `d = 3/10` to `d = 7/10`, equals 1 at `d = 1/4` (below
the band) and 0 at `d = 3/4` (above the band). -/
theorem c7_monotone_sweep_witness :
    blendFactor 1 0 3 (1/2) ≤ blendFactor 2 0 3 (1/2) ∧
    blendFactor (3/2) 0 3 (7/10) ≤ blendFactor (3/2) 0 3 (3/10) ∧
    blendFactor (3/2) 0 3 (1/4) = 1 ∧
    blendFactor (3/2) 0 3 (3/4) = 0 := by
  have h := c7_monotone_sweep 0 3 (by norm_num)
  have hw : currWavePos (3/2) 0 3 = 1/2 := by
    simp only [currWavePos, maxLength_eq, halfWave_eq, progress, glClamp]
    norm_num [min_def, max_def]
  refine ⟨h.1 (1/2) 1 2 (by norm_num),
    h.2.1 (3/2) (3/10) (7/10) (by norm_num), ?_, ?_⟩
  · exact h.2.2.1 (3/2) (1/4) (by rw [hw, halfWave_eq]; norm_num)
  · exact h.2.2.2 (3/2) (3/4) (by rw [hw, halfWave_eq]; norm_num)

end R3F
